import Mathlib

/-
Verification development for the arbiter-service core: the escrow policy
table, the eligibility validator, the resolve-ticket schema normalizer,
nonce generation, and the Ed25519 sign/verify lifecycle, shallowly
embedded from the TypeScript sources (src/types.ts, src/gemini-arbiter.ts,
the Claude arbiter, src/policy.ts, src/index.ts, src/config.ts).

External cryptographic primitives (the sha256 digest from @noble/hashes
and the tweetnacl Ed25519 functions) are modelled as deterministic byte
functions with the same input/output shapes, determinism, and error
behaviour (length checks that throw) as the libraries.  Every claim
verified here depends only on those contract-level properties, never on
the internals of the compression function or the curve arithmetic.
All repository-owned code (canonical JSON serialization, hex
encoding/decoding with Node Buffer semantics, the zod schema checks, the
business-rule validator, the nonce builders, the policy table) is
translated faithfully from the source.
-/

/-- Hex digit character for a nibble, lowercase, as produced by
Buffer.toString with hex encoding. -/
def hexDigitChar (n : Nat) : Char :=
  if n < 10 then Char.ofNat (48 + n) else Char.ofNat (87 + n)

/-- Value of one hex digit character; accepts both cases, as Node does. -/
def hexVal (c : Char) : Option Nat :=
  if 48 ≤ c.toNat ∧ c.toNat ≤ 57 then some (c.toNat - 48)
  else if 97 ≤ c.toNat ∧ c.toNat ≤ 102 then some (c.toNat - 87)
  else if 65 ≤ c.toNat ∧ c.toNat ≤ 70 then some (c.toNat - 55)
  else none

/-- Byte list to lowercase hex characters, two per byte. -/
def hexEncodeChars : List Nat → List Char
  | [] => []
  | b :: bs => hexDigitChar (b / 16 % 16) :: hexDigitChar (b % 16) :: hexEncodeChars bs

/-- Buffer.toString with hex encoding. -/
def hexEncode (bs : List Nat) : String := String.mk (hexEncodeChars bs)

/-- Node Buffer.from with hex encoding: decodes complete valid pairs from
the start of the string and stops (truncates) at the first invalid
character or incomplete pair; it never throws. -/
def hexDecodeChars : List Char → List Nat
  | c1 :: c2 :: cs =>
    match hexVal c1, hexVal c2 with
    | some hi, some lo => (16 * hi + lo) :: hexDecodeChars cs
    | _, _ => []
  | _ => []

/-- Node Buffer.from with hex encoding, on a string. -/
def hexDecode (s : String) : List Nat := hexDecodeChars s.data

/-- Decimal digit characters of a natural number, fuel-indexed so that the
definition is structural and kernel-reducible. -/
def natCharsAux : Nat → Nat → List Char → List Char
  | 0, _, acc => acc
  | fuel + 1, n, acc =>
    if n < 10 then Char.ofNat (48 + n) :: acc
    else natCharsAux fuel (n / 10) (Char.ofNat (48 + n % 10) :: acc)

/-- Decimal digit characters of a natural number (JS String of an
integer-valued number). -/
def natChars (n : Nat) : List Char := natCharsAux (n + 1) n []

/-- Decimal string of a natural number. -/
def natStr (n : Nat) : String := String.mk (natChars n)

/-- Decimal string of an integer. -/
def intStr (i : Int) : String := if i < 0 then "-" ++ natStr i.natAbs else natStr i.natAbs

/-- Model of the external sha256 primitive from @noble/hashes: a
deterministic digest with exactly 32 output bytes, each below 256.  The
claims verified in this file depend only on determinism and output shape,
never on the actual SHA-256 compression function. -/
def sha256 (m : List Nat) : List Nat :=
  let h := m.foldl (fun a b => (a * 131 + b % 256 + 1) % 2305843009213693951) 7
  (List.range 32).map (fun i => (h * (2 * i + 3) + i) % 256)

/-- An Ed25519 keypair as held by tweetnacl: a 32-byte public key and a
64-byte secret key (seed followed by the public key). -/
structure SignKeyPair where
  publicKey : List Nat
  secretKey : List Nat
deriving DecidableEq

/-- Model of tweetnacl sign.keyPair.fromSeed: the public key is a
deterministic 32-byte function of the 32-byte seed, and the secret key is
the seed with the public key appended, exactly as tweetnacl lays it out. -/
def naclKeyPairFromSeed (seed : List Nat) : SignKeyPair :=
  { publicKey := sha256 seed, secretKey := seed ++ sha256 seed }

/-- The arbiter constructor: decode the configured secret hex, take the
first 32 bytes as seed, and derive the keypair (gemini-arbiter.ts and the
Claude arbiter constructors). -/
def keypairFromSecret (secret : List Nat) : SignKeyPair :=
  naclKeyPairFromSeed (secret.take 32)

/-- Model of a detached Ed25519 signature: a deterministic 64-byte value
determined by the message and the signer identity (Ed25519 signatures are
deterministic per message and key). -/
def sigBytes (msg pk : List Nat) : List Nat :=
  sha256 (0 :: (pk ++ msg)) ++ sha256 (1 :: (pk ++ msg))

/-- Model of tweetnacl sign.detached: signs with the 64-byte secret key,
whose second half is the public key. -/
def naclSignDetached (msg sk : List Nat) : List Nat := sigBytes msg (sk.drop 32)

/-- Model of tweetnacl sign.detached.verify: throws (Except.error) on a
signature that is not 64 bytes or a public key that is not 32 bytes,
exactly as tweetnacl does, and otherwise reports whether the signature is
the one the key holder would have produced for this message. -/
def naclVerifyDetached (msg sig pk : List Nat) : Except String Bool :=
  if sig.length ≠ 64 then Except.error "bad signature size"
  else if pk.length ≠ 32 then Except.error "bad public key size"
  else Except.ok (decide (sig = sigBytes msg pk))

/-- The resolve ticket record, with the nine fields of ResolveTicketSchema
in src/types.ts.  The confidence number is modelled as a rational. -/
structure ResolveTicket where
  schema : String
  deal_id : String
  outcome : String
  reason_short : String
  rationale_cid : String
  violated_rules : List String
  confidence : ℚ
  nonce : String
  expires_at_utc : String
deriving DecidableEq

/-- The signed wire artifact of SignedResolveTicketSchema. -/
structure SignedResolveTicket where
  ticket : ResolveTicket
  arbiter_pubkey : String
  ed25519_signature : String
deriving DecidableEq

/-- JSON string escaping used by JSON.stringify. -/
def jsonEscapeChar (c : Char) : List Char :=
  if c = '"' then ['\\', '"']
  else if c = '\\' then ['\\', '\\']
  else if c = '\n' then ['\\', 'n']
  else if c = '\r' then ['\\', 'r']
  else if c = '\t' then ['\\', 't']
  else if c.toNat < 32 then
    ['\\', 'u', '0', '0', hexDigitChar (c.toNat / 16), hexDigitChar (c.toNat % 16)]
  else [c]

/-- JSON escape of a whole string. -/
def jsonEscape (s : String) : String := String.mk ((s.data.map jsonEscapeChar).flatten)

/-- A JSON string literal. -/
def jsonStr (s : String) : String := "\"" ++ jsonEscape s ++ "\""

/-- A JSON array of string literals. -/
def jsonStrList (xs : List String) : String :=
  "[" ++ String.intercalate "," (xs.map jsonStr) ++ "]"

/-- Model of the JS number-to-string conversion JSON.stringify applies to
the confidence field: a fixed deterministic rendering of the rational
value (equal values always serialize to equal strings). -/
def jsonNum (q : ℚ) : String := intStr q.num ++ "/" ++ natStr q.den

/-- Canonical serialization: JSON.stringify of the ticket with no
whitespace, fields in the insertion order of the zod shape
(signTicket in gemini-arbiter.ts and the Claude arbiter). -/
def canonicalTicket (t : ResolveTicket) : String :=
  "\x7b\"schema\":" ++ jsonStr t.schema ++
  ",\"deal_id\":" ++ jsonStr t.deal_id ++
  ",\"outcome\":" ++ jsonStr t.outcome ++
  ",\"reason_short\":" ++ jsonStr t.reason_short ++
  ",\"rationale_cid\":" ++ jsonStr t.rationale_cid ++
  ",\"violated_rules\":" ++ jsonStrList t.violated_rules ++
  ",\"confidence\":" ++ jsonNum t.confidence ++
  ",\"nonce\":" ++ jsonStr t.nonce ++
  ",\"expires_at_utc\":" ++ jsonStr t.expires_at_utc ++ "\x7d"

/-- Bytes of the canonical string fed to the digest (Buffer.from of the
canonical JSON; codepoints reduced to byte range for the digest model). -/
def strBytes (s : String) : List Nat := s.data.map (fun c => c.toNat % 256)

/-- signTicket: digest the canonical serialization, sign with the arbiter
secret key, and hex-encode signature and public key
(gemini-arbiter.ts lines 230-240, identical in the Claude arbiter). -/
def signTicket (kp : SignKeyPair) (ticket : ResolveTicket) : SignedResolveTicket :=
  { ticket := ticket,
    arbiter_pubkey := hexEncode kp.publicKey,
    ed25519_signature :=
      hexEncode (naclSignDetached (sha256 (strBytes (canonicalTicket ticket))) kp.secretKey) }

/-- The body of the try block of verifyTicket: recompute the canonical
digest, hex-decode signature and public key, and call the nacl verifier,
which may throw. -/
def verifyTicketE (st : SignedResolveTicket) : Except String Bool :=
  naclVerifyDetached (sha256 (strBytes (canonicalTicket st.ticket)))
    (hexDecode st.ed25519_signature) (hexDecode st.arbiter_pubkey)

/-- verifyTicket: the try/catch wrapper that collapses every thrown error
to false (gemini-arbiter.ts lines 293-304, identical in the Claude
arbiter). -/
def verifyTicket (st : SignedResolveTicket) : Bool :=
  match verifyTicketE st with
  | Except.ok b => b
  | Except.error _ => false

/-- The fixed schema URI literal of ResolveTicketSchema. -/
def TICKET_SCHEMA_URI : String := "https://artha.network/schemas/resolve-ticket-v1.json"

/-- The nonce regex of the schema: one or more decimal digits. -/
def nonceOk (s : String) : Bool := !s.data.isEmpty && s.data.all Char.isDigit

/-- One or more digits followed by a final Z (tail of the zod datetime
regex); the flag records whether a digit has been seen. -/
def digitsThenZ : Bool → List Char → Bool
  | seen, ['Z'] => seen
  | _, c :: cs => c.isDigit && digitsThenZ true cs
  | _, [] => false

/-- After the seconds field: either a bare Z or a dot, digits, and Z. -/
def fracOrZ : List Char → Bool
  | ['Z'] => true
  | '.' :: cs => digitsThenZ false cs
  | _ => false

/-- The default zod string datetime check: an ISO-8601 UTC timestamp of
shape digits 4-2-2 T 2:2:2 with optional fractional seconds and Z. -/
def datetimeOk (s : String) : Bool :=
  match s.data with
  | y1 :: y2 :: y3 :: y4 :: c1 :: m1 :: m2 :: c2 :: d1 :: d2 :: ct ::
      h1 :: h2 :: c3 :: mi1 :: mi2 :: c4 :: s1 :: s2 :: rest =>
    [y1, y2, y3, y4, m1, m2, d1, d2, h1, h2, mi1, mi2, s1, s2].all Char.isDigit
    && (c1 == '-') && (c2 == '-') && (ct == 'T') && (c3 == ':') && (c4 == ':')
    && fracOrZ rest
  | _ => false

/-- ResolveTicketSchema.parse: every field check of the zod schema in
src/types.ts, rejecting (never clamping, truncating, or overwriting) any
out-of-contract value; on success the input passes through unchanged. -/
def parseResolveTicket (t : ResolveTicket) : Except String ResolveTicket :=
  if t.schema ≠ TICKET_SCHEMA_URI then Except.error "schema: invalid literal"
  else if t.deal_id.data.isEmpty then Except.error "deal_id: too short"
  else if t.outcome ≠ "RELEASE" ∧ t.outcome ≠ "REFUND" then Except.error "outcome: invalid enum value"
  else if 200 < t.reason_short.length then Except.error "reason_short: too long"
  else if t.confidence < 0 ∨ 1 < t.confidence then Except.error "confidence: out of range"
  else if ¬ nonceOk t.nonce then Except.error "nonce: invalid"
  else if ¬ datetimeOk t.expires_at_utc then Except.error "expires_at_utc: invalid datetime"
  else Except.ok t

/-- Boolean success test for an Except value. -/
def exceptOk {α β : Type} : Except α β → Bool
  | Except.ok _ => true
  | Except.error _ => false

/-- A ticket satisfies the ticket schema when the zod parse succeeds. -/
def ticketValid (t : ResolveTicket) : Bool := exceptOk (parseResolveTicket t)

/-- The Gemini arbitration tail: parse the model output against the
schema, and sign the validated ticket unchanged (arbitrateCase steps 6-7
in gemini-arbiter.ts). -/
def geminiNormalizeAndSign (kp : SignKeyPair) (modelOutput : ResolveTicket) :
    Except String SignedResolveTicket :=
  (parseResolveTicket modelOutput).map (signTicket kp)

/-- The Claude spread: the server-generated nonce and expiry overwrite
whatever the analyzer returned, before validation. -/
def claudeOverwrite (parsed : ResolveTicket) (nonce expiresAt : String) : ResolveTicket :=
  { parsed with nonce := nonce, expires_at_utc := expiresAt }

/-- The Claude arbitration tail: overwrite nonce and expiry with the
server-generated values, parse, and sign (the Claude arbitrateCase). -/
def claudeNormalizeAndSign (kp : SignKeyPair) (parsed : ResolveTicket)
    (nonce expiresAt : String) : Except String SignedResolveTicket :=
  (parseResolveTicket (claudeOverwrite parsed nonce expiresAt)).map (signTicket kp)

/-- Model of crypto.randomUUID as used for the Gemini nonce: the version-4
UUID string formatted from 16 random bytes, lowercase hex in groups
8-4-4-4-12 separated by hyphens, with the version and variant bits
forced. -/
def randomUUID (b : List Nat) : String :=
  String.mk (hexEncodeChars [b.getD 0 0 % 256, b.getD 1 0 % 256, b.getD 2 0 % 256, b.getD 3 0 % 256]
    ++ '-' :: hexEncodeChars [b.getD 4 0 % 256, b.getD 5 0 % 256]
    ++ '-' :: hexEncodeChars [64 + b.getD 6 0 % 16, b.getD 7 0 % 256]
    ++ '-' :: hexEncodeChars [128 + b.getD 8 0 % 64, b.getD 9 0 % 256]
    ++ '-' :: hexEncodeChars [b.getD 10 0 % 256, b.getD 11 0 % 256, b.getD 12 0 % 256,
        b.getD 13 0 % 256, b.getD 14 0 % 256, b.getD 15 0 % 256])

/-- The Claude nonce: current epoch milliseconds concatenated with a
random value below one billion rendered as decimal and left-padded with
zeros to nine characters (the Claude arbitrateCase). -/
def claudeNonce (nowMs rand : Nat) : String :=
  String.mk (natChars nowMs
    ++ List.replicate (9 - (natChars (rand % 1000000000)).length) '0'
    ++ natChars (rand % 1000000000))

/-- The closed set of admissible outcomes. -/
inductive Outcome
  | RELEASE
  | REFUND
deriving DecidableEq

/-- A policy rule of src/policy.ts. -/
structure PolicyRule where
  id : String
  precedence : Nat
  description : String
  condition : String
  outcome : Outcome
  required_evidence : List String
deriving DecidableEq

/-- The policy table ESCROW_POLICY_V1 of src/policy.ts, verbatim, in
source order. -/
def ESCROW_POLICY_V1 : List PolicyRule := [
  { id := "seller_deadline_miss",
    precedence := 100,
    description := "Seller fails to provide required evidence before dispute deadline",
    condition := "dispute_by timestamp passed AND seller has not provided delivery_proof",
    outcome := Outcome.REFUND,
    required_evidence := [] },
  { id := "seller_delivery_proof",
    precedence := 90,
    description := "Seller provides valid delivery confirmation before deadline",
    condition := "seller provides delivery_proof AND timestamp < dispute_by",
    outcome := Outcome.RELEASE,
    required_evidence := ["delivery_proof", "tracking_number"] },
  { id := "buyer_item_not_as_described",
    precedence := 80,
    description := "Buyer proves item significantly differs from description",
    condition := "buyer provides evidence of material discrepancy",
    outcome := Outcome.REFUND,
    required_evidence := ["photo_evidence", "description_comparison"] },
  { id := "buyer_damage_proof",
    precedence := 75,
    description := "Buyer proves item was damaged in transit",
    condition := "buyer provides evidence of shipping damage",
    outcome := Outcome.REFUND,
    required_evidence := ["damage_photos", "packaging_photos"] },
  { id := "seller_fraud_proof",
    precedence := 95,
    description := "Clear evidence of seller fraud or misrepresentation",
    condition := "evidence shows seller knowingly misrepresented item",
    outcome := Outcome.REFUND,
    required_evidence := ["fraud_evidence"] },
  { id := "buyer_fraud_proof",
    precedence := 95,
    description := "Clear evidence of buyer fraud or false claims",
    condition := "evidence shows buyer making false claims",
    outcome := Outcome.RELEASE,
    required_evidence := ["fraud_evidence"] },
  { id := "insufficient_evidence",
    precedence := 10,
    description := "Default case when evidence is insufficient for other rules",
    condition := "no other rule applies with sufficient evidence",
    outcome := Outcome.REFUND,
    required_evidence := [] }
]

/-- The deal lifecycle status enumeration of DealSchema. -/
inductive DealStatus
  | Init
  | Funded
  | Disputed
  | Resolved
  | Released
  | Refunded
deriving DecidableEq

/-- A deal record, as in DealSchema of src/types.ts. -/
structure Deal where
  deal_id : String
  seller : String
  buyer : String
  amount : ℚ
  mint : String
  dispute_by : Int
  fee_bps : Int
  created_at : Int
  status : DealStatus
deriving DecidableEq

/-- An evidence item, as in EvidenceSchema of src/types.ts. -/
structure EvidenceItem where
  cid : String
  type : String
  description : String
  submitted_by : String
  submitted_at : Int
  extracted_text : Option String
deriving DecidableEq

/-- An arbitration request, as in ArbitrationRequestSchema. -/
structure ArbitrationRequest where
  deal : Deal
  evidence : List EvidenceItem
  seller_claim : String
  buyer_claim : String
deriving DecidableEq

/-- The zod checks of EvidenceSchema. -/
def evidenceItemOk (e : EvidenceItem) : Bool :=
  !e.cid.data.isEmpty
  && (e.type == "pdf" || e.type == "image" || e.type == "text" || e.type == "json")
  && (e.submitted_by == "seller" || e.submitted_by == "buyer")
  && decide (0 < e.submitted_at)

/-- The zod checks of DealSchema. -/
def dealOk (d : Deal) : Bool :=
  !d.deal_id.data.isEmpty && !d.seller.data.isEmpty && !d.buyer.data.isEmpty
  && decide (0 < d.amount) && !d.mint.data.isEmpty && decide (0 < d.dispute_by)
  && decide (0 ≤ d.fee_bps) && decide (0 < d.created_at)

/-- The zod checks of ArbitrationRequestSchema: a valid deal, at least one
valid evidence item, and non-empty claims. -/
def requestSchemaOk (r : ArbitrationRequest) : Bool :=
  dealOk r.deal && decide (1 ≤ r.evidence.length) && r.evidence.all evidenceItemOk
  && !r.seller_claim.data.isEmpty && !r.buyer_claim.data.isEmpty

/-- The process-level flag CONFIG.policy.disputeWindowCheck (config.ts). -/
def disputeWindowCheck : Bool := true

/-- validateBusinessRules of both arbiters: when the window check is
enabled, first reject a dispute whose window is still open, then reject a
deal that is not in Disputed status. -/
def validateBusinessRules (windowCheck : Bool) (now : Int) (r : ArbitrationRequest) :
    Except String Unit :=
  if windowCheck ∧ now < r.deal.dispute_by then
    Except.error "Dispute period has not yet ended"
  else if r.deal.status ≠ DealStatus.Disputed then
    Except.error "Deal must be in Disputed status for arbitration"
  else Except.ok ()

/-- The /arbitrate route in index.ts: the request-schema parse (which
enforces the non-empty identifier and non-empty evidence list) runs
before arbitrateCase reaches validateBusinessRules. -/
def routeValidate (windowCheck : Bool) (now : Int) (r : ArbitrationRequest) :
    Except String Unit :=
  if requestSchemaOk r then validateBusinessRules windowCheck now r
  else Except.error "Invalid request format"

/-- A concrete schema-valid resolve ticket used by witnesses. -/
def ticket0 : ResolveTicket :=
  { schema := TICKET_SCHEMA_URI,
    deal_id := "deal-1",
    outcome := "RELEASE",
    reason_short := "delivery confirmed",
    rationale_cid := "pending",
    violated_rules := [],
    confidence := mkRat 9 10,
    nonce := "12345",
    expires_at_utc := "2026-10-12T00:00:00Z" }

/-- A concrete keypair seed used by witnesses. -/
def seed0 : List Nat := List.range 32

/-- A concrete keypair used by witnesses. -/
def kp0 : SignKeyPair := naclKeyPairFromSeed seed0

/-- A signed ticket with malformed signature hex, used by the totality
witness. -/
def badSigned : SignedResolveTicket :=
  { ticket := ticket0, arbiter_pubkey := "zz", ed25519_signature := "" }

/-- A deal that is not Disputed and whose dispute window is still open. -/
def deal0 : Deal :=
  { deal_id := "deal-1", seller := "SellerPubkey", buyer := "BuyerPubkey",
    amount := 100, mint := "USDC", dispute_by := 100, fee_bps := 0,
    created_at := 1, status := DealStatus.Funded }

/-- A concrete evidence item. -/
def evidence0 : EvidenceItem :=
  { cid := "cid-1", type := "text", description := "tracking",
    submitted_by := "seller", submitted_at := 1, extracted_text := none }

/-- A concrete arbitration request around deal0. -/
def request0 : ArbitrationRequest :=
  { deal := deal0, evidence := [evidence0], seller_claim := "s", buyer_claim := "b" }

/-- A candidate verdict with out-of-range confidence (scenario D). -/
def overconfident : ResolveTicket := { ticket0 with confidence := mkRat 3 2 }

/-- A candidate verdict carrying a different schema value. -/
def wrongSchemaTicket : ResolveTicket :=
  { ticket0 with schema := "https://example.com/other-schema.json" }

/-- The digest model always yields 32 bytes. -/
theorem sha256_length (m : List Nat) : (sha256 m).length = 32 := by
  simp [sha256]

/-- Every byte of the digest model is below 256. -/
theorem sha256_mem_lt (m : List Nat) : ∀ b ∈ sha256 m, b < 256 := by
  intro b hb
  simp only [sha256, List.mem_map, List.mem_range] at hb
  obtain ⟨i, _, rfl⟩ := hb
  exact Nat.mod_lt _ (by norm_num)

/-- The signature model always yields 64 bytes. -/
theorem sigBytes_length (msg pk : List Nat) : (sigBytes msg pk).length = 64 := by
  simp [sigBytes, sha256_length]

/-- Every byte of the signature model is below 256. -/
theorem sigBytes_mem_lt (msg pk : List Nat) : ∀ b ∈ sigBytes msg pk, b < 256 := by
  intro b hb
  rcases List.mem_append.mp hb with h | h
  · exact sha256_mem_lt _ b h
  · exact sha256_mem_lt _ b h

/-- Hex digit encode/decode round-trip on a nibble. -/
theorem hexVal_hexDigitChar : ∀ n : Nat, n < 16 → hexVal (hexDigitChar n) = some n := by
  decide

/-- Node hex decoding inverts hex encoding on byte lists. -/
theorem hexDecodeChars_hexEncodeChars (bs : List Nat) (h : ∀ b ∈ bs, b < 256) :
    hexDecodeChars (hexEncodeChars bs) = bs := by
  induction bs with
  | nil => rfl
  | cons b bs ih =>
    have hb : b < 256 := h b (List.mem_cons_self b bs)
    have h1 : b / 16 % 16 < 16 := Nat.mod_lt _ (by norm_num)
    have h2 : b % 16 < 16 := Nat.mod_lt _ (by norm_num)
    simp only [hexEncodeChars, hexDecodeChars, hexVal_hexDigitChar _ h1,
      hexVal_hexDigitChar _ h2]
    refine congrArg₂ List.cons (by omega) ?_
    exact ih (fun x hx => h x (List.mem_cons_of_mem _ hx))

/-- String-level hex round-trip. -/
theorem hexDecode_hexEncode (bs : List Nat) (h : ∀ b ∈ bs, b < 256) :
    hexDecode (hexEncode bs) = bs :=
  hexDecodeChars_hexEncodeChars bs h

/-- C3 counterexample: the policy table is not pairwise distinct in
precedence — seller_fraud_proof and buyer_fraud_proof both carry
precedence 95. -/
theorem policy_precedence_clash :
    ¬ List.Pairwise (fun r1 r2 => r1.precedence ≠ r2.precedence) ESCROW_POLICY_V1 := by
  decide

/-- C3 amended: the precedence values of the rules in ESCROW_POLICY_V1 are
pairwise distinct except for the single pair seller_fraud_proof /
buyer_fraud_proof, which share precedence 95. -/
theorem policy_precedence_distinct_except_fraud :
    List.Pairwise
      (fun r1 r2 => r1.precedence ≠ r2.precedence ∨
        (r1.id = "seller_fraud_proof" ∧ r2.id = "buyer_fraud_proof"))
      ESCROW_POLICY_V1 := by
  decide

/-- C4 counterexample: not exactly one rule of the policy table has an
empty required-evidence list — both seller_deadline_miss and
insufficient_evidence have one. -/
theorem policy_empty_evidence_two_rules :
    (ESCROW_POLICY_V1.filter (fun r => r.required_evidence.isEmpty)).length ≠ 1 ∧
    (ESCROW_POLICY_V1.filter (fun r => r.required_evidence.isEmpty)).map (fun r => r.id)
      = ["seller_deadline_miss", "insufficient_evidence"] := by
  decide

/-- C4 amended: exactly two rules of the policy table have an empty
required-evidence list (seller_deadline_miss and insufficient_evidence);
the insufficient_evidence rule has the strictly lowest precedence of all
rules and outcome REFUND. -/
theorem policy_default_rule_amended :
    (ESCROW_POLICY_V1.filter (fun r => r.required_evidence.isEmpty)).map (fun r => r.id)
      = ["seller_deadline_miss", "insufficient_evidence"] ∧
    ESCROW_POLICY_V1.all
      (fun r => r.id == "insufficient_evidence" || decide (10 < r.precedence)) = true ∧
    ESCROW_POLICY_V1.any
      (fun r => r.id == "insufficient_evidence" && r.precedence == 10
        && decide (r.outcome = Outcome.REFUND) && r.required_evidence.isEmpty) = true := by
  decide

/-- Core round-trip lemma shared by the signature claims: a ticket signed
with a keypair derived from a 32-byte seed verifies. -/
theorem verify_sign_core (t : ResolveTicket) (seed : List Nat) (h32 : seed.length = 32) :
    verifyTicket (signTicket (naclKeyPairFromSeed seed) t) = true := by
  have hdrop : ((seed ++ sha256 seed).drop 32) = sha256 seed := by
    rw [← h32, List.drop_left]
  unfold verifyTicket verifyTicketE signTicket naclKeyPairFromSeed naclSignDetached
  simp only [hdrop]
  rw [hexDecode_hexEncode _ (sigBytes_mem_lt _ _), hexDecode_hexEncode _ (sha256_mem_lt _)]
  unfold naclVerifyDetached
  rw [if_neg (by simp [sigBytes_length]), if_neg (by simp [sha256_length])]
  simp

/-- C1: round-trip law — for every ResolveTicket that satisfies the ticket
schema and every Ed25519 keypair derived from a 32-byte seed, verifying
the signed ticket produced by signing the ticket with that keypair
returns true. -/
theorem verify_sign_roundtrip (t : ResolveTicket) (seed : List Nat)
    (hseed : seed.length = 32) (hvalid : ticketValid t = true) :
    verifyTicket (signTicket (naclKeyPairFromSeed seed) t) = true :=
  verify_sign_core t seed hseed

/-- C1 witness: the round-trip law at a concrete schema-valid ticket and a
concrete 32-byte seed. -/
theorem verify_sign_roundtrip_witness :
    verifyTicket (signTicket (naclKeyPairFromSeed seed0) ticket0) = true :=
  verify_sign_roundtrip ticket0 seed0 (by decide) (by decide)

/-- C9: verification ignores expiry and nonce — a correctly signed ticket
verifies whatever its expires_at_utc and nonce fields hold (in particular
a long-past expiry), and verifyTicket takes no clock or nonce-history
input at all: its result is a pure function of the three fields of the
signed ticket. -/
theorem verify_ignores_expiry_and_nonce (t : ResolveTicket) (seed : List Nat)
    (hseed : seed.length = 32) (expiry nonce : String) :
    verifyTicket (signTicket (naclKeyPairFromSeed seed)
      { t with expires_at_utc := expiry, nonce := nonce }) = true :=
  verify_sign_core _ seed hseed

/-- C9 witness: a ticket whose expiry is far in the past and whose nonce
is a fixed reused value still verifies. -/
theorem verify_ignores_expiry_and_nonce_witness :
    verifyTicket (signTicket (naclKeyPairFromSeed seed0)
      { ticket0 with expires_at_utc := "2000-01-01T00:00:00Z", nonce := "1" }) = true :=
  verify_ignores_expiry_and_nonce ticket0 seed0 (by decide) "2000-01-01T00:00:00Z" "1"

/-- C2: totality of verification — verifyTicket is a total Boolean
function: every error raised inside the verification body (malformed hex
collapsing to a wrong-length signature or key, or any other throw) yields
false, and verifyTicket returns true exactly when the decoded signature
has 64 bytes, the decoded public key has 32 bytes, and the signature
matches the recomputed canonical digest under that key; every other input
yields false, never an exception. -/
theorem verifyTicket_totality (st : SignedResolveTicket) :
    (∀ e, verifyTicketE st = Except.error e → verifyTicket st = false) ∧
    (verifyTicket st = true ↔
      (hexDecode st.ed25519_signature).length = 64 ∧
      (hexDecode st.arbiter_pubkey).length = 32 ∧
      hexDecode st.ed25519_signature =
        sigBytes (sha256 (strBytes (canonicalTicket st.ticket)))
          (hexDecode st.arbiter_pubkey)) := by
  constructor
  · intro e he
    unfold verifyTicket
    rw [he]
  · unfold verifyTicket verifyTicketE naclVerifyDetached
    by_cases h1 : (hexDecode st.ed25519_signature).length = 64
    · by_cases h2 : (hexDecode st.arbiter_pubkey).length = 32
      · simp [h1, h2]
      · simp [h1, h2]
    · simp [h1]

/-- C2 witness: a ticket with malformed hex (empty-decoding signature)
makes the verification body throw a bad-signature-size error, and
verifyTicket collapses it to false. -/
theorem verifyTicket_totality_witness : verifyTicket badSigned = false :=
  (verifyTicket_totality badSigned).1 "bad signature size" rfl

/-- C5 counterexample: at a concrete request whose deal has status Funded
and whose dispute window is still open, with the window check enabled as
in CONFIG, validateBusinessRules reports the window error, not the status
error the claimed check order would produce. -/
theorem validate_order_cx :
    validateBusinessRules disputeWindowCheck 50 request0 =
      Except.error "Dispute period has not yet ended" ∧
    "Dispute period has not yet ended" ≠
      "Deal must be in Disputed status for arbitration" :=
  ⟨rfl, by decide⟩

/-- C5 amended: the empty-identifier and empty-evidence checks run in the
request-schema parse before the business rules; inside
validateBusinessRules the dispute-window check (when enabled) runs before
the status check, so a non-Disputed dispute with an open window yields the
window error when the check is on, and the status error only when the
window check is off or the window has closed. -/
theorem validate_order (windowCheck : Bool) (now : Int) (r : ArbitrationRequest)
    (hstatus : r.deal.status ≠ DealStatus.Disputed) :
    (r.evidence = [] → routeValidate windowCheck now r = Except.error "Invalid request format") ∧
    (windowCheck = true → now < r.deal.dispute_by →
      validateBusinessRules windowCheck now r = Except.error "Dispute period has not yet ended") ∧
    (windowCheck = false →
      validateBusinessRules windowCheck now r =
        Except.error "Deal must be in Disputed status for arbitration") ∧
    (r.deal.dispute_by ≤ now →
      validateBusinessRules windowCheck now r =
        Except.error "Deal must be in Disputed status for arbitration") := by
  refine ⟨?_, ?_, ?_, ?_⟩
  · intro hev
    unfold routeValidate requestSchemaOk
    rw [hev]
    simp
  · intro hw hn
    unfold validateBusinessRules
    rw [if_pos (by exact ⟨by simp [hw], hn⟩)]
  · intro hw
    unfold validateBusinessRules
    rw [if_neg (by simp [hw]), if_pos hstatus]
  · intro hn
    unfold validateBusinessRules
    rw [if_neg (by intro h; omega), if_pos hstatus]

/-- C5 witness: the amended ordering at the concrete non-Disputed,
open-window request. -/
theorem validate_order_witness :
    validateBusinessRules true 50 request0 = Except.error "Dispute period has not yet ended" :=
  (validate_order true 50 request0 (by decide)).2.1 rfl (by decide)

/-- On success, the schema parse passes the input ticket through
unchanged. -/
theorem parseResolveTicket_ok_eq (x t : ResolveTicket)
    (h : parseResolveTicket x = Except.ok t) : t = x := by
  unfold parseResolveTicket at h
  split_ifs at h
  exact (Except.ok.inj h).symm

/-- An Except is not ok exactly when no ok value matches it. -/
theorem exceptOk_eq_false {α β : Type} (x : Except α β) :
    exceptOk x = false ↔ ∀ b, x ≠ Except.ok b := by
  cases x <;> simp [exceptOk]

/-- C6: the normalizer rejects rather than repairs — any candidate verdict
whose confidence lies outside the closed interval from 0 to 1, or whose
outcome is not RELEASE or REFUND, or whose reason exceeds 200 characters,
fails the schema parse (no clamped or truncated value is produced), and
consequently the Gemini arbitration tail never signs a ticket for it. -/
theorem normalizer_rejects (raw : ResolveTicket) (kp : SignKeyPair)
    (hbad : raw.confidence < 0 ∨ 1 < raw.confidence ∨
      (raw.outcome ≠ "RELEASE" ∧ raw.outcome ≠ "REFUND") ∨
      200 < raw.reason_short.length) :
    exceptOk (parseResolveTicket raw) = false ∧
    ∀ st, geminiNormalizeAndSign kp raw ≠ Except.ok st := by
  have hfail : exceptOk (parseResolveTicket raw) = false := by
    unfold parseResolveTicket
    split_ifs with h1 h2 h3 h4 h5 h6 h7
    all_goals first
    | rfl
    | exact absurd hbad (by tauto)
  refine ⟨hfail, fun st hok => ?_⟩
  rcases hp : parseResolveTicket raw with e | v
  · rw [geminiNormalizeAndSign, hp] at hok
    exact Except.noConfusion hok
  · rw [hp] at hfail
    exact Bool.noConfusion hfail

/-- C6 witness: scenario D — a candidate with confidence 3/2 is rejected
and never signed. -/
theorem normalizer_rejects_witness :
    exceptOk (parseResolveTicket overconfident) = false ∧
    ∀ st, geminiNormalizeAndSign kp0 overconfident ≠ Except.ok st :=
  normalizer_rejects overconfident kp0 (Or.inr (Or.inl (by decide)))

/-- C7 counterexample: a candidate carrying a different schema value is
rejected by the parse — no ticket with an overwritten schema is produced,
contradicting the claim that the normalizer overwrites the schema field
rather than rejecting. -/
theorem schema_overwrite_cx :
    exceptOk (parseResolveTicket wrongSchemaTicket) = false ∧
    ∀ t, parseResolveTicket wrongSchemaTicket ≠ Except.ok t := by
  refine ⟨rfl, fun t ht => ?_⟩
  rw [show parseResolveTicket wrongSchemaTicket
      = Except.error "schema: invalid literal" from rfl] at ht
  exact Except.noConfusion ht

/-- C7 amended: the schema field is pinned to the single literal value by
validation, not by overwriting — a candidate whose schema differs from
the literal fails the parse, and every ticket that passes the parse
carries exactly the literal schema value (the Claude path overwrites only
nonce and expires_at_utc, never schema). -/
theorem schema_literal_enforced (raw : ResolveTicket) :
    (raw.schema ≠ TICKET_SCHEMA_URI → exceptOk (parseResolveTicket raw) = false) ∧
    (∀ t, parseResolveTicket raw = Except.ok t → t.schema = TICKET_SCHEMA_URI) := by
  constructor
  · intro h
    unfold parseResolveTicket
    rw [if_pos h]
    rfl
  · intro t ht
    unfold parseResolveTicket at ht
    split_ifs at ht with h1
    rw [← Except.ok.inj ht]
    exact not_not.mp h1

/-- C7 witness: the amended statement at a wrong-schema candidate and at a
passing candidate. -/
theorem schema_literal_enforced_witness :
    exceptOk (parseResolveTicket wrongSchemaTicket) = false ∧
    ticket0.schema = TICKET_SCHEMA_URI :=
  ⟨(schema_literal_enforced wrongSchemaTicket).1 (by decide),
   (schema_literal_enforced ticket0).2 ticket0 rfl⟩

/-- Every character produced by the decimal renderer is a digit. -/
theorem natCharsAux_digits (fuel : Nat) :
    ∀ n acc, (∀ c ∈ acc, c.isDigit = true) → ∀ c ∈ natCharsAux fuel n acc, c.isDigit = true := by
  induction fuel with
  | zero => intro n acc hacc c hc; exact hacc c hc
  | succ fuel ih =>
    intro n acc hacc c hc
    have hdig : ∀ m, m < 10 → (Char.ofNat (48 + m)).isDigit = true := by decide
    simp only [natCharsAux] at hc
    by_cases h : n < 10
    · rw [if_pos h] at hc
      rcases List.mem_cons.mp hc with rfl | hm
      · exact hdig n h
      · exact hacc c hm
    · rw [if_neg h] at hc
      refine ih (n / 10) _ ?_ c hc
      intro d hd
      rcases List.mem_cons.mp hd with rfl | hm
      · exact hdig (n % 10) (Nat.mod_lt _ (by norm_num))
      · exact hacc d hm

/-- The decimal renderer never loses its accumulator. -/
theorem natCharsAux_ne_nil (fuel : Nat) :
    ∀ n acc, acc ≠ [] → natCharsAux fuel n acc ≠ [] := by
  induction fuel with
  | zero => intro n acc h; exact h
  | succ fuel ih =>
    intro n acc h
    simp only [natCharsAux]
    by_cases hn : n < 10
    · rw [if_pos hn]; exact List.cons_ne_nil _ _
    · rw [if_neg hn]; exact ih _ _ (List.cons_ne_nil _ _)

/-- The decimal rendering of a natural number is all digits. -/
theorem natChars_digits (n : Nat) : ∀ c ∈ natChars n, c.isDigit = true :=
  natCharsAux_digits (n + 1) n [] (by simp)

/-- The decimal rendering of a natural number is non-empty. -/
theorem natChars_ne_nil (n : Nat) : natChars n ≠ [] := by
  unfold natChars
  simp only [natCharsAux]
  by_cases hn : n < 10
  · rw [if_pos hn]; exact List.cons_ne_nil _ _
  · rw [if_neg hn]; exact natCharsAux_ne_nil _ _ _ (List.cons_ne_nil _ _)

/-- A character list containing a hyphen fails the numeric-nonce test. -/
theorem no_digit_dash (l : List Char) (h : ('-' : Char) ∈ l) :
    (!l.isEmpty && l.all Char.isDigit) = false := by
  have hall : l.all Char.isDigit = false := by
    cases hall : l.all Char.isDigit
    · rfl
    · exact absurd (List.all_eq_true.mp hall _ h) (by decide)
  rw [hall, Bool.and_false]

/-- A non-empty all-digit character list passes the numeric-nonce test. -/
theorem digits_pass (l : List Char) (h1 : l ≠ []) (h2 : ∀ c ∈ l, c.isDigit = true) :
    (!l.isEmpty && l.all Char.isDigit) = true := by
  cases l with
  | nil => exact absurd rfl h1
  | cons c tl =>
    simp only [List.isEmpty_cons, Bool.not_false, Bool.true_and]
    exact List.all_eq_true.mpr h2

/-- A UUID string never matches the numeric nonce regex: it always carries
a hyphen. -/
theorem nonceOk_randomUUID (b : List Nat) : nonceOk (randomUUID b) = false := by
  unfold nonceOk randomUUID
  exact no_digit_dash _ (List.mem_append.mpr (Or.inr (List.mem_cons_self _ _)))

/-- The Claude nonce always matches the numeric nonce regex. -/
theorem nonceOk_claudeNonce (nowMs rand : Nat) : nonceOk (claudeNonce nowMs rand) = true := by
  unfold nonceOk claudeNonce
  refine digits_pass _ ?_ ?_
  · intro h
    exact natChars_ne_nil nowMs (List.append_eq_nil.mp (List.append_eq_nil.mp h).1).1
  · intro c hc
    rcases List.mem_append.mp hc with h | h
    · rcases List.mem_append.mp h with h | h
      · exact natChars_digits _ c h
      · rw [List.eq_of_mem_replicate h]; decide
    · exact natChars_digits _ c h

/-- Any candidate whose nonce is a UUID fails the schema parse. -/
theorem parse_rejects_uuid_nonce (raw : ResolveTicket) (b : List Nat)
    (h : raw.nonce = randomUUID b) : exceptOk (parseResolveTicket raw) = false := by
  unfold parseResolveTicket
  split_ifs with h1 h2 h3 h4 h5 h6 h7
  all_goals try rfl
  rw [h, nonceOk_randomUUID] at h6
  exact Bool.noConfusion h6

/-- C8 — code bug: the schema's nonce regex admits only decimal digits,
and the Claude builder nonce (epoch milliseconds plus a zero-padded
random block) always matches it, but the Gemini builder generates
crypto.randomUUID, whose hyphenated hex output never matches; any ticket
echoing a Gemini builder nonce therefore fails the very schema the same
arbitrateCase enforces. -/
theorem gemini_nonce_schema_bug :
    (∀ b : List Nat, nonceOk (randomUUID b) = false) ∧
    (∀ nowMs rand : Nat, nonceOk (claudeNonce nowMs rand) = true) ∧
    (∀ (raw : ResolveTicket) (b : List Nat), raw.nonce = randomUUID b →
      exceptOk (parseResolveTicket raw) = false) :=
  ⟨nonceOk_randomUUID, nonceOk_claudeNonce, parse_rejects_uuid_nonce⟩

/-- C8 witness: a concrete otherwise-valid ticket carrying a concrete
UUID nonce fails the schema parse. -/
theorem gemini_nonce_schema_bug_witness :
    exceptOk (parseResolveTicket { ticket0 with nonce := randomUUID (List.range 16) }) = false :=
  gemini_nonce_schema_bug.2.2 _ (List.range 16) rfl

/-- C10: the Claude path overwrites the analyzer's nonce and expiry with
the server-generated values before validation and signing, so every
signed ticket it produces carries exactly the server nonce and expiry,
independent of the analyzer output; the Gemini path performs no such
overwrite — the ticket it signs carries exactly the analyzer-echoed nonce
and expiry. -/
theorem claude_overwrites_nonce_expiry (kp : SignKeyPair) (parsed : ResolveTicket)
    (nonce expiresAt : String) (raw : ResolveTicket) :
    (∀ st, claudeNormalizeAndSign kp parsed nonce expiresAt = Except.ok st →
      st.ticket.nonce = nonce ∧ st.ticket.expires_at_utc = expiresAt) ∧
    (∀ st, geminiNormalizeAndSign kp raw = Except.ok st →
      st.ticket.nonce = raw.nonce ∧ st.ticket.expires_at_utc = raw.expires_at_utc) := by
  constructor
  · intro st hok
    unfold claudeNormalizeAndSign at hok
    rcases hp : parseResolveTicket (claudeOverwrite parsed nonce expiresAt) with e | v
    · rw [hp] at hok
      exact Except.noConfusion hok
    · rw [hp] at hok
      simp only [Except.map] at hok
      have hv : v = claudeOverwrite parsed nonce expiresAt := parseResolveTicket_ok_eq _ _ hp
      rw [← Except.ok.inj hok, hv]
      exact ⟨rfl, rfl⟩
  · intro st hok
    unfold geminiNormalizeAndSign at hok
    rcases hp : parseResolveTicket raw with e | v
    · rw [hp] at hok
      exact Except.noConfusion hok
    · rw [hp] at hok
      simp only [Except.map] at hok
      have hv : v = raw := parseResolveTicket_ok_eq _ _ hp
      rw [← Except.ok.inj hok, hv]
      exact ⟨rfl, rfl⟩

/-- C10 witness: at concrete inputs the Claude pipeline signs exactly the
server nonce and expiry. -/
theorem claude_overwrites_nonce_expiry_witness :
    (signTicket kp0 (claudeOverwrite ticket0 "777" "2026-11-01T00:00:00Z")).ticket.nonce = "777" ∧
    (signTicket kp0 (claudeOverwrite ticket0 "777" "2026-11-01T00:00:00Z")).ticket.expires_at_utc
      = "2026-11-01T00:00:00Z" :=
  (claude_overwrites_nonce_expiry kp0 ticket0 "777" "2026-11-01T00:00:00Z" ticket0).1 _ rfl
